import Mathlib

/-!
Verification of the order lifecycle and pricing engine of the
food-delivery backend (`app/services/order_service.py` together with the
models in `app/models/` and the schemas in `app/schemas/order.py`).

Monetary values are Python `Decimal`s in the source; every operation the
service performs on them (addition, subtraction, multiplication, and
division by the literal 100) is exact at the magnitudes admitted by the
`Numeric(10,2)` / `Numeric(5,2)` columns, so they are embedded as exact
rationals (`ℚ`).  Identifiers (UUIDs in the source) are embedded as `Nat`;
only equality of identifiers is ever used.  `HTTPException` becomes an
explicit error type carrying the HTTP status kind and the detail string,
and each service method becomes a pure function over an explicit database
state, `Except` (error) its result.
-/

/-- The enumeration `OrderStatus` of `app/models/order.py`. -/
inductive OrderStatus where
  | placed
  | canceled
  | processing
  | in_route
  | delivered
  | received
deriving DecidableEq, Repr

/-- The enumeration `UserRole` of `app/models/user.py`. -/
inductive UserRole where
  | customer
  | restaurant_owner
  | admin
deriving DecidableEq, Repr

/-- The `User` model fields the order service reads. -/
structure User where
  id : Nat
  role : UserRole
deriving DecidableEq, Repr

/-- The `Restaurant` model fields the order service reads. -/
structure Restaurant where
  id : Nat
  owner_id : Nat
  is_blocked : Bool
deriving DecidableEq, Repr

/-- The `Meal` model fields the order service reads. -/
structure Meal where
  id : Nat
  name : String
  price : ℚ
  restaurant_id : Nat
  is_blocked : Bool
deriving DecidableEq, Repr

/-- The `Coupon` model fields the order service reads. -/
structure Coupon where
  id : Nat
  code : String
  discount_percentage : ℚ
  is_active : Bool
deriving DecidableEq, Repr

/-- The `Order` model of `app/models/order.py` (rows of table `orders`). -/
structure Order where
  id : Nat
  customer_id : Nat
  restaurant_id : Nat
  status : OrderStatus
  total_amount : ℚ
  tip_amount : ℚ
  coupon_id : Option Nat
deriving DecidableEq, Repr

/-- The `OrderItem` model (rows of table `order_items`). -/
structure OrderItem where
  order_id : Nat
  meal_id : Nat
  quantity : Nat
  price_at_order : ℚ
deriving DecidableEq, Repr

/-- The `OrderStatusHistory` model (rows of table `order_status_history`).
`changed_by_user_id` is nullable in the model, hence an `Option`. -/
structure OrderStatusHistory where
  order_id : Nat
  status : OrderStatus
  changed_by_user_id : Option Nat
deriving DecidableEq, Repr

/-- The schema `OrderItemCreate` (`app/schemas/order.py`): one cart line,
`quantity` an `int` constrained `gt=0` by the schema. -/
structure OrderItemCreate where
  meal_id : Nat
  quantity : Nat
deriving DecidableEq, Repr

/-- The schema `OrderCreate`: the body of a place-order request. -/
structure OrderCreate where
  restaurant_id : Nat
  items : List OrderItemCreate
  tip_amount : ℚ
  coupon_code : Option String
deriving DecidableEq, Repr

/-- Embeds `HTTPException` as raised by the service: the three status codes used
by the order service, each with its `detail` string.  `forbidden` is 403,
`notFound` is 404 and `badRequest` is 400 (the spec's `InvalidState`). -/
inductive ApiError where
  | forbidden (detail : String)
  | notFound (detail : String)
  | badRequest (detail : String)
deriving DecidableEq, Repr

/-- The durable state the order service reads and writes: the row sets of
the relevant tables.  `next_order_id` models the id generator for new
orders (`default=uuid.uuid4` in the source; only freshness matters). -/
structure DBState where
  restaurants : List Restaurant
  meals : List Meal
  coupons : List Coupon
  orders : List Order
  order_items : List OrderItem
  status_history : List OrderStatusHistory
  next_order_id : Nat
deriving DecidableEq, Repr

/-- Embeds `RestaurantService.get_restaurant_by_id`: first row matching the id. -/
def get_restaurant_by_id (s : DBState) (restaurant_id : Nat) : Option Restaurant :=
  s.restaurants.find? (fun r => r.id == restaurant_id)

/-- Embeds `MealService.get_meal_by_id`: first row matching the id. -/
def get_meal_by_id (s : DBState) (meal_id : Nat) : Option Meal :=
  s.meals.find? (fun m => m.id == meal_id)

/-- Embeds `CouponService.get_coupon_by_code`: first row matching the code. -/
def get_coupon_by_code (s : DBState) (code : String) : Option Coupon :=
  s.coupons.find? (fun c => c.code == code)

/-- Embeds `OrderService.get_order_by_id`: first row matching the id. -/
def get_order_by_id (s : DBState) (order_id : Nat) : Option Order :=
  s.orders.find? (fun o => o.id == order_id)

/-- Rendering of a status value inside the transition error message
(`str`-valued enum members render as `OrderStatus.PLACED` etc. in the
f-string of the source). -/
def statusText : OrderStatus → String
  | .placed => "OrderStatus.PLACED"
  | .canceled => "OrderStatus.CANCELED"
  | .processing => "OrderStatus.PROCESSING"
  | .in_route => "OrderStatus.IN_ROUTE"
  | .delivered => "OrderStatus.DELIVERED"
  | .received => "OrderStatus.RECEIVED"

/-- The `allowed_transitions` table of
`OrderService._validate_status_transition` (order_service.py lines
186-193). -/
def allowed_transitions : OrderStatus → List OrderStatus
  | .placed => [.canceled, .processing]
  | .processing => [.canceled, .in_route]
  | .in_route => [.delivered]
  | .delivered => [.received]
  | .canceled => []
  | .received => []

/-- The per-item loop of `OrderService.create_order` (lines 74-96): walk
the cart lines in order, first failure wins; on success return the
accumulated `total_amount` and the `meal_items` list of `(meal, quantity)`
pairs, in cart order. -/
def process_cart_items (s : DBState) (order_restaurant_id : Nat) :
    List OrderItemCreate → ℚ → List (Meal × Nat) →
    Except ApiError (ℚ × List (Meal × Nat))
  | [], total_amount, meal_items => .ok (total_amount, meal_items.reverse)
  | item :: rest, total_amount, meal_items =>
    match get_meal_by_id s item.meal_id with
    | none =>
      .error (.notFound ("Meal with ID " ++ toString item.meal_id ++ " not found"))
    | some meal =>
      if meal.is_blocked then
        .error (.badRequest ("Meal " ++ meal.name ++ " is blocked"))
      else if meal.restaurant_id ≠ order_restaurant_id then
        .error (.badRequest "All meals must be from the same restaurant")
      else
        process_cart_items s order_restaurant_id rest
          (total_amount + meal.price * item.quantity) ((meal, item.quantity) :: meal_items)

/-- The coupon block of `OrderService.create_order` (lines 98-115):
resolve an optional coupon code, subtract the discount from the running
total, and produce the `coupon_id` to persist. -/
def apply_coupon (s : DBState) (coupon_code : Option String) (total_amount : ℚ) :
    Except ApiError (ℚ × Option Nat) :=
  match coupon_code with
  | none => .ok (total_amount, none)
  | some code =>
    match get_coupon_by_code s code with
    | none => .error (.notFound "Coupon not found")
    | some coupon =>
      if ¬ coupon.is_active then
        .error (.badRequest "Coupon is not active")
      else
        .ok (total_amount - total_amount * (coupon.discount_percentage / 100),
             some coupon.id)

/-- Embeds `OrderService.create_order` (order_service.py lines 44-152): validate
role, restaurant, cart and coupon in that order (first failure raises, so
nothing is written); then persist, as one committed unit, the new `Order`
(status PLACED), one `OrderItem` per cart line with the meal's current
price frozen into `price_at_order`, and one `OrderStatusHistory` row
(status PLACED, changed by the customer). -/
def create_order (s : DBState) (order_data : OrderCreate) (customer : User) :
    Except ApiError (DBState × Order) :=
  if customer.role ≠ UserRole.customer then
    .error (.forbidden "Only customers can place orders")
  else
    match get_restaurant_by_id s order_data.restaurant_id with
    | none => .error (.notFound "Restaurant not found")
    | some restaurant =>
      if restaurant.is_blocked then
        .error (.badRequest "Restaurant is blocked")
      else
        match process_cart_items s order_data.restaurant_id order_data.items 0 [] with
        | .error e => .error e
        | .ok (total_after_items, meal_items) =>
          match apply_coupon s order_data.coupon_code total_after_items with
          | .error e => .error e
          | .ok (total_after_coupon, coupon_id) =>
            let total_amount := total_after_coupon + order_data.tip_amount
            let oid := s.next_order_id
            let db_order : Order :=
              { id := oid
                customer_id := customer.id
                restaurant_id := order_data.restaurant_id
                status := .placed
                total_amount := total_amount
                tip_amount := order_data.tip_amount
                coupon_id := coupon_id }
            let new_items : List OrderItem := meal_items.map (fun mq =>
              { order_id := oid
                meal_id := mq.1.id
                quantity := mq.2
                price_at_order := mq.1.price })
            let hist : OrderStatusHistory :=
              { order_id := oid, status := .placed, changed_by_user_id := some customer.id }
            .ok ({ s with
                    orders := s.orders ++ [db_order]
                    order_items := s.order_items ++ new_items
                    status_history := s.status_history ++ [hist]
                    next_order_id := oid + 1 },
                 db_order)

/-- Embeds `OrderService._validate_status_transition` (lines 181-235): the
transition-table check first, then the role/ownership policy.  The
`restaurant_owner` branch dereferences the restaurant looked up on line
202; an order always references an existing restaurant (foreign key), and
the impossible missing case is reported as a distinct error so the
function stays total. -/
def validate_status_transition (s : DBState) (order : Order)
    (new_status : OrderStatus) (user : User) : Except ApiError Unit :=
  let current_status := order.status
  if new_status ∉ allowed_transitions current_status then
    .error (.badRequest ("Cannot transition from " ++ statusText current_status ++
      " to " ++ statusText new_status))
  else
    match user.role with
    | .customer =>
      if user.id ≠ order.customer_id then
        .error (.forbidden "Not your order")
      else if new_status ∉ [OrderStatus.canceled, OrderStatus.received] then
        .error (.forbidden "Customers can only cancel orders or mark them as received")
      else if new_status = OrderStatus.canceled ∧ current_status ≠ OrderStatus.placed then
        .error (.badRequest "Can only cancel orders that are in PLACED status")
      else
        .ok ()
    | .restaurant_owner =>
      match get_restaurant_by_id s order.restaurant_id with
      | none => .error (.notFound "order references a missing restaurant")
      | some restaurant =>
        if user.id ≠ restaurant.owner_id then
          .error (.forbidden "Not your restaurant's order")
        else if new_status = OrderStatus.received then
          .error (.forbidden "Only customers can mark orders as received")
        else
          .ok ()
    | .admin => .ok ()

/-- Embeds `OrderService.update_order_status` (lines 154-179): look the order up,
validate the transition, then atomically set the status field and append
one history row. -/
def update_order_status (s : DBState) (order_id : Nat)
    (new_status : OrderStatus) (current_user : User) :
    Except ApiError (DBState × Order) :=
  match get_order_by_id s order_id with
  | none => .error (.notFound "Order not found")
  | some db_order =>
    match validate_status_transition s db_order new_status current_user with
    | .error e => .error e
    | .ok _ =>
      let updated := { db_order with status := new_status }
      let hist : OrderStatusHistory :=
        { order_id := db_order.id, status := new_status,
          changed_by_user_id := some current_user.id }
      .ok ({ s with
              orders := s.orders.map (fun o => if o.id = db_order.id then updated else o)
              status_history := s.status_history ++ [hist] },
           updated)

/-- Embeds `OrderService.delete_order` (lines 237-254): admin-role check first,
then existence; deletion cascades to the order's items and history rows
(`cascade="all, delete-orphan"` on the `items` and `status_history`
relationships, app/models/order.py lines 39-40). -/
def delete_order (s : DBState) (order_id : Nat) (current_user : User) :
    Except ApiError (DBState × Bool) :=
  if current_user.role ≠ UserRole.admin then
    .error (.forbidden "Only admins can delete orders")
  else
    match get_order_by_id s order_id with
    | none => .error (.notFound "Order not found")
    | some _ =>
      .ok ({ s with
              orders := s.orders.filter (fun o => o.id ≠ order_id)
              order_items := s.order_items.filter (fun it => it.order_id ≠ order_id)
              status_history := s.status_history.filter (fun h => h.order_id ≠ order_id) },
           true)

/-- Pricing as §4.1 of the spec words it: the subtotal is the sum over
line items of unit price times quantity. -/
def spec_subtotal (lineItems : List (ℚ × Nat)) : ℚ :=
  (lineItems.map (fun li => li.1 * (li.2 : ℚ))).sum

/-- Pricing as §4.1 of the spec words it: apply the optional percentage
discount to the subtotal, then add the tip (no rounding here; see
`roundHalfUp2`). -/
def spec_computeTotal (lineItems : List (ℚ × Nat))
    (coupon : Option ℚ) (tip : ℚ) : ℚ :=
  let subtotal := spec_subtotal lineItems
  let discounted :=
    match coupon with
    | none => subtotal
    | some discountPercentage => subtotal - subtotal * (discountPercentage / 100)
  discounted + tip

/-- Modelled from the spec: the service code in `src` applies no explicit
rounding; the total is quantized to 2 fractional digits only by the
`Numeric(10,2)` column at the persistence boundary, outside the sources,
and §4.1 of the spec fixes that design decision as round half up applied
once at the end.  For the non-negative totals at hand, round half up to 2
decimal places is the floor of `100·q + 1/2`, divided by 100. -/
def roundHalfUp2 (q : ℚ) : ℚ :=
  (⌊q * 100 + 1/2⌋ : ℤ) / 100

/-! ## Helper definitions used by the statements -/

/-- A cart line resolved against the catalog: the meal the loop of
`create_order` found for it, together with the line's quantity. -/
def cart_line_resolved (s : DBState) (rid : Nat)
    (it : OrderItemCreate) (mq : Meal × Nat) : Prop :=
  get_meal_by_id s it.meal_id = some mq.1 ∧ mq.1.is_blocked = false ∧
  mq.1.restaurant_id = rid ∧ mq.2 = it.quantity

/-- The discount percentage the coupon code resolves to, if any. -/
def coupon_discount_of (s : DBState) : Option String → Option ℚ
  | none => none
  | some code => (get_coupon_by_code s code).map (fun c => c.discount_percentage)

/-- A cart line that passes every per-item check of `create_order`. -/
def cart_line_valid (s : DBState) (rid : Nat) (it : OrderItemCreate) : Prop :=
  ∃ m, get_meal_by_id s it.meal_id = some m ∧ m.is_blocked = false ∧
    m.restaurant_id = rid

/-! ## Elimination lemmas for the embedded operations -/

theorem process_cart_items_ok (s : DBState) (rid : Nat) :
    ∀ (items : List OrderItemCreate) (total : ℚ) (acc : List (Meal × Nat))
      (t : ℚ) (ms : List (Meal × Nat)),
    process_cart_items s rid items total acc = .ok (t, ms) →
    ∃ tail, ms = acc.reverse ++ tail ∧
      t = total + spec_subtotal (tail.map (fun mq => (mq.1.price, mq.2))) ∧
      List.Forall₂ (cart_line_resolved s rid) items tail := by
  intro items
  induction items with
  | nil =>
    intro total acc t ms h
    simp only [process_cart_items, Except.ok.injEq, Prod.mk.injEq] at h
    obtain ⟨rfl, rfl⟩ := h
    exact ⟨[], by simp, by simp [spec_subtotal], List.Forall₂.nil⟩
  | cons item rest ih =>
    intro total acc t ms h
    simp only [process_cart_items] at h
    split at h
    · exact absurd h (by simp)
    next meal hm =>
      split at h
      · exact absurd h (by simp)
      next hb =>
        split at h
        · exact absurd h (by simp)
        next hr =>
          obtain ⟨tail, htail, ht, hfa⟩ :=
            ih (total + meal.price * item.quantity) ((meal, item.quantity) :: acc) t ms h
          refine ⟨(meal, item.quantity) :: tail, ?_, ?_, ?_⟩
          · simpa using htail
          · simp only [List.map_cons, spec_subtotal, List.sum_cons] at ht ⊢
            rw [ht]; ring
          · exact List.Forall₂.cons
              ⟨hm, by simpa using hb, not_ne_iff.mp hr, rfl⟩ hfa

theorem apply_coupon_ok {s : DBState} {coupon_code : Option String}
    {total t2 : ℚ} {cid : Option Nat}
    (h : apply_coupon s coupon_code total = .ok (t2, cid)) :
    (coupon_code = none ∧ t2 = total ∧ cid = none) ∨
    (∃ code coupon, coupon_code = some code ∧
      get_coupon_by_code s code = some coupon ∧ coupon.is_active = true ∧
      t2 = total - total * (coupon.discount_percentage / 100) ∧
      cid = some coupon.id) := by
  unfold apply_coupon at h
  split at h
  · left
    simp only [Except.ok.injEq, Prod.mk.injEq] at h
    exact ⟨rfl, h.1.symm, h.2.symm⟩
  next code =>
    right
    split at h
    · exact absurd h (by simp)
    next coupon hc =>
      split at h
      · exact absurd h (by simp)
      next hact =>
        simp only [Except.ok.injEq, Prod.mk.injEq] at h
        exact ⟨code, coupon, rfl, hc, by simpa using hact, h.1.symm, h.2.symm⟩

theorem create_order_ok {s : DBState} {d : OrderCreate} {u : User}
    {s' : DBState} {o : Order}
    (h : create_order s d u = .ok (s', o)) :
    u.role = .customer ∧
    (∃ r, get_restaurant_by_id s d.restaurant_id = some r ∧ r.is_blocked = false) ∧
    ∃ t ms t2 cid,
      process_cart_items s d.restaurant_id d.items 0 [] = .ok (t, ms) ∧
      apply_coupon s d.coupon_code t = .ok (t2, cid) ∧
      o = { id := s.next_order_id, customer_id := u.id,
            restaurant_id := d.restaurant_id, status := .placed,
            total_amount := t2 + d.tip_amount, tip_amount := d.tip_amount,
            coupon_id := cid } ∧
      s' = { s with
              orders := s.orders ++ [o]
              order_items := s.order_items ++ ms.map (fun mq =>
                { order_id := s.next_order_id, meal_id := mq.1.id,
                  quantity := mq.2, price_at_order := mq.1.price })
              status_history := s.status_history ++
                [{ order_id := s.next_order_id, status := .placed,
                   changed_by_user_id := some u.id }]
              next_order_id := s.next_order_id + 1 } := by
  unfold create_order at h
  split at h
  · exact absurd h (by simp)
  next hrole =>
    split at h
    · exact absurd h (by simp)
    next r hr =>
      split at h
      · exact absurd h (by simp)
      next hb =>
        split at h
        next e hpc => exact absurd h (by simp)
        next t ms hpc =>
          split at h
          next e hac => exact absurd h (by simp)
          next t2 cid hac =>
            simp only [Except.ok.injEq, Prod.mk.injEq] at h
            obtain ⟨hs', ho⟩ := h
            refine ⟨not_ne_iff.mp hrole, ⟨r, hr, by simpa using hb⟩,
              t, ms, t2, cid, hpc, hac, ho.symm, ?_⟩
            rw [← hs', ← ho]

theorem process_cart_items_skip (s : DBState) (rid : Nat) :
    ∀ (pre : List OrderItemCreate) (total : ℚ) (acc : List (Meal × Nat)),
    (∀ it ∈ pre, cart_line_valid s rid it) →
    ∃ total' acc', ∀ rest, process_cart_items s rid (pre ++ rest) total acc =
      process_cart_items s rid rest total' acc' := by
  intro pre
  induction pre with
  | nil => intro total acc _; exact ⟨total, acc, fun rest => rfl⟩
  | cons it pre ih =>
    intro total acc hv
    obtain ⟨m, hm, hb, hr⟩ := hv it (by simp)
    obtain ⟨total', acc', heq⟩ :=
      ih (total + m.price * it.quantity) ((m, it.quantity) :: acc)
        (fun x hx => hv x (by simp [hx]))
    refine ⟨total', acc', fun rest => ?_⟩
    simp only [List.cons_append, process_cart_items, hm, hb, hr]
    simpa using heq rest

theorem process_cart_items_all_valid (s : DBState) (rid : Nat)
    (items : List OrderItemCreate) (total : ℚ) (acc : List (Meal × Nat))
    (hv : ∀ it ∈ items, cart_line_valid s rid it) :
    ∃ t ms, process_cart_items s rid items total acc = .ok (t, ms) := by
  obtain ⟨total', acc', heq⟩ := process_cart_items_skip s rid items total acc hv
  refine ⟨total', acc'.reverse, ?_⟩
  have := heq []
  rw [List.append_nil] at this
  rw [this]
  rfl

theorem process_cart_items_missing (s : DBState) (rid : Nat)
    (pre : List OrderItemCreate) (item : OrderItemCreate)
    (rest : List OrderItemCreate) (total : ℚ) (acc : List (Meal × Nat))
    (hpre : ∀ it ∈ pre, cart_line_valid s rid it)
    (hm : get_meal_by_id s item.meal_id = none) :
    process_cart_items s rid (pre ++ item :: rest) total acc =
      .error (.notFound ("Meal with ID " ++ toString item.meal_id ++ " not found")) := by
  obtain ⟨total', acc', heq⟩ := process_cart_items_skip s rid pre total acc hpre
  rw [heq]
  simp [process_cart_items, hm]

theorem process_cart_items_blocked (s : DBState) (rid : Nat)
    (pre : List OrderItemCreate) (item : OrderItemCreate) (m : Meal)
    (rest : List OrderItemCreate) (total : ℚ) (acc : List (Meal × Nat))
    (hpre : ∀ it ∈ pre, cart_line_valid s rid it)
    (hm : get_meal_by_id s item.meal_id = some m) (hb : m.is_blocked = true) :
    process_cart_items s rid (pre ++ item :: rest) total acc =
      .error (.badRequest ("Meal " ++ m.name ++ " is blocked")) := by
  obtain ⟨total', acc', heq⟩ := process_cart_items_skip s rid pre total acc hpre
  rw [heq]
  simp [process_cart_items, hm, hb]

theorem process_cart_items_cross_restaurant (s : DBState) (rid : Nat)
    (pre : List OrderItemCreate) (item : OrderItemCreate) (m : Meal)
    (rest : List OrderItemCreate) (total : ℚ) (acc : List (Meal × Nat))
    (hpre : ∀ it ∈ pre, cart_line_valid s rid it)
    (hm : get_meal_by_id s item.meal_id = some m)
    (hb : m.is_blocked = false) (hr : m.restaurant_id ≠ rid) :
    process_cart_items s rid (pre ++ item :: rest) total acc =
      .error (.badRequest "All meals must be from the same restaurant") := by
  obtain ⟨total', acc', heq⟩ := process_cart_items_skip s rid pre total acc hpre
  rw [heq]
  simp [process_cart_items, hm, hb, hr]

theorem create_order_of_cart_error {s : DBState} {d : OrderCreate} {u : User}
    {r : Restaurant} {e : ApiError} (hrole : u.role = .customer)
    (hr : get_restaurant_by_id s d.restaurant_id = some r)
    (hb : r.is_blocked = false)
    (hpc : process_cart_items s d.restaurant_id d.items 0 [] = .error e) :
    create_order s d u = .error e := by
  simp [create_order, hrole, hr, hb, hpc]

theorem create_order_of_coupon_error {s : DBState} {d : OrderCreate} {u : User}
    {r : Restaurant} {t : ℚ} {ms : List (Meal × Nat)} {e : ApiError}
    (hrole : u.role = .customer)
    (hr : get_restaurant_by_id s d.restaurant_id = some r)
    (hb : r.is_blocked = false)
    (hpc : process_cart_items s d.restaurant_id d.items 0 [] = .ok (t, ms))
    (hac : apply_coupon s d.coupon_code t = .error e) :
    create_order s d u = .error e := by
  simp [create_order, hrole, hr, hb, hpc, hac]

theorem validate_illegal_transition {s : DBState} {order : Order}
    {new_status : OrderStatus} {user : User}
    (h : new_status ∉ allowed_transitions order.status) :
    validate_status_transition s order new_status user =
      .error (.badRequest ("Cannot transition from " ++ statusText order.status ++
        " to " ++ statusText new_status)) := by
  unfold validate_status_transition
  rw [if_pos h]

theorem update_order_status_of_guard_error {s : DBState} {oid : Nat}
    {new_status : OrderStatus} {u : User} {order : Order} {e : ApiError}
    (hord : get_order_by_id s oid = some order)
    (hval : validate_status_transition s order new_status u = .error e) :
    update_order_status s oid new_status u = .error e := by
  simp [update_order_status, hord, hval]

theorem update_order_status_of_guard_ok {s : DBState} {oid : Nat}
    {new_status : OrderStatus} {u : User} {order : Order}
    (hord : get_order_by_id s oid = some order)
    (hval : validate_status_transition s order new_status u = .ok ()) :
    update_order_status s oid new_status u =
      .ok ({ s with
              orders := s.orders.map (fun x =>
                if x.id = order.id then { order with status := new_status } else x)
              status_history := s.status_history ++
                [{ order_id := order.id, status := new_status,
                   changed_by_user_id := some u.id }] },
           { order with status := new_status }) := by
  simp [update_order_status, hord, hval]

theorem update_order_status_ok {s : DBState} {oid : Nat}
    {new_status : OrderStatus} {u : User} {s' : DBState} {o' : Order}
    (h : update_order_status s oid new_status u = .ok (s', o')) :
    ∃ order, get_order_by_id s oid = some order ∧
      validate_status_transition s order new_status u = .ok () ∧
      o' = { order with status := new_status } ∧
      s' = { s with
              orders := s.orders.map (fun x =>
                if x.id = order.id then { order with status := new_status } else x)
              status_history := s.status_history ++
                [{ order_id := order.id, status := new_status,
                   changed_by_user_id := some u.id }] } := by
  unfold update_order_status at h
  split at h
  · exact absurd h (by simp)
  next order hord =>
    split at h
    · exact absurd h (by simp)
    next v hval =>
      simp only [Except.ok.injEq, Prod.mk.injEq] at h
      obtain ⟨hs', ho'⟩ := h
      exact ⟨order, hord, hval, ho'.symm, hs'.symm⟩

theorem validate_customer_not_owner {s : DBState} {order : Order}
    {new_status : OrderStatus} {user : User}
    (hrole : user.role = .customer)
    (hallow : new_status ∈ allowed_transitions order.status)
    (hid : user.id ≠ order.customer_id) :
    validate_status_transition s order new_status user =
      .error (.forbidden "Not your order") := by
  simp [validate_status_transition, hrole, hallow, hid]

theorem validate_customer_bad_target {s : DBState} {order : Order}
    {new_status : OrderStatus} {user : User}
    (hrole : user.role = .customer)
    (hallow : new_status ∈ allowed_transitions order.status)
    (hid : user.id = order.customer_id)
    (hts : new_status ∉ [OrderStatus.canceled, OrderStatus.received]) :
    validate_status_transition s order new_status user =
      .error (.forbidden "Customers can only cancel orders or mark them as received") := by
  simp only [validate_status_transition, hrole, hid]
  rw [if_neg (not_not_intro hallow), if_neg (by simp), if_pos hts]

theorem validate_customer_cancel_not_placed {s : DBState} {order : Order}
    {user : User}
    (hrole : user.role = .customer)
    (hallow : OrderStatus.canceled ∈ allowed_transitions order.status)
    (hid : user.id = order.customer_id)
    (hst : order.status ≠ .placed) :
    validate_status_transition s order .canceled user =
      .error (.badRequest "Can only cancel orders that are in PLACED status") := by
  simp only [validate_status_transition, hrole, hid]
  rw [if_neg (not_not_intro hallow), if_neg (by simp),
    if_neg (by simp), if_pos (by exact ⟨trivial, hst⟩)]

theorem validate_customer_ok {s : DBState} {order : Order}
    {new_status : OrderStatus} {user : User}
    (hrole : user.role = .customer)
    (hallow : new_status ∈ allowed_transitions order.status)
    (hid : user.id = order.customer_id)
    (hts : new_status ∈ [OrderStatus.canceled, OrderStatus.received])
    (hcancel : new_status = .canceled → order.status = .placed) :
    validate_status_transition s order new_status user = .ok () := by
  simp only [validate_status_transition, hrole, hid]
  rw [if_neg (not_not_intro hallow), if_neg (by simp),
    if_neg (not_not_intro hts), if_neg ?_]
  intro ⟨hc, hp⟩
  exact hp (hcancel hc)

theorem validate_owner_not_owner {s : DBState} {order : Order}
    {new_status : OrderStatus} {user : User} {r : Restaurant}
    (hrole : user.role = .restaurant_owner)
    (hallow : new_status ∈ allowed_transitions order.status)
    (hr : get_restaurant_by_id s order.restaurant_id = some r)
    (hid : user.id ≠ r.owner_id) :
    validate_status_transition s order new_status user =
      .error (.forbidden "Not your restaurant's order") := by
  simp [validate_status_transition, hrole, hallow, hr, hid]

theorem validate_owner_received {s : DBState} {order : Order}
    {user : User} {r : Restaurant}
    (hrole : user.role = .restaurant_owner)
    (hallow : OrderStatus.received ∈ allowed_transitions order.status)
    (hr : get_restaurant_by_id s order.restaurant_id = some r)
    (hid : user.id = r.owner_id) :
    validate_status_transition s order .received user =
      .error (.forbidden "Only customers can mark orders as received") := by
  simp [validate_status_transition, hrole, hallow, hr, hid]

theorem validate_owner_ok {s : DBState} {order : Order}
    {new_status : OrderStatus} {user : User} {r : Restaurant}
    (hrole : user.role = .restaurant_owner)
    (hallow : new_status ∈ allowed_transitions order.status)
    (hr : get_restaurant_by_id s order.restaurant_id = some r)
    (hid : user.id = r.owner_id)
    (hrec : new_status ≠ .received) :
    validate_status_transition s order new_status user = .ok () := by
  simp [validate_status_transition, hrole, hallow, hr, hid, hrec]

theorem validate_admin_ok {s : DBState} {order : Order}
    {new_status : OrderStatus} {user : User}
    (hrole : user.role = .admin)
    (hallow : new_status ∈ allowed_transitions order.status) :
    validate_status_transition s order new_status user = .ok () := by
  simp [validate_status_transition, hrole, hallow]

/-! ## Concrete fixtures (the spec's test scenarios) -/

def demoRestaurant : Restaurant := ⟨1, 2, false⟩

def otherRestaurant : Restaurant := ⟨7, 8, false⟩

def demoMeal : Meal := ⟨10, "Pizza", 15.99, 1, false⟩

def demoMeal2 : Meal := ⟨11, "Pasta", 12.99, 1, false⟩

def otherMeal : Meal := ⟨12, "Sushi", 9.99, 7, false⟩

def demoCoupon : Coupon := ⟨5, "DISCOUNT10", 10, true⟩

def staleCoupon : Coupon := ⟨6, "OLD", 20, false⟩

def demoCustomer : User := ⟨3, .customer⟩

def otherCustomer : User := ⟨9, .customer⟩

def demoOwner : User := ⟨2, .restaurant_owner⟩

def otherOwner : User := ⟨8, .restaurant_owner⟩

def demoAdmin : User := ⟨4, .admin⟩

def demoState : DBState :=
  ⟨[demoRestaurant, otherRestaurant], [demoMeal, demoMeal2, otherMeal],
   [demoCoupon, staleCoupon], [], [], [], 100⟩

def orderA : OrderCreate := ⟨1, [⟨10, 1⟩], 5, none⟩

def orderB : OrderCreate := ⟨1, [⟨10, 1⟩], 0, some "DISCOUNT10"⟩

def mixedCart : OrderCreate := ⟨1, [⟨10, 1⟩, ⟨12, 1⟩], 0, none⟩

def dupCart : OrderCreate := ⟨1, [⟨10, 1⟩, ⟨10, 2⟩], 0, none⟩

def staleCouponCart : OrderCreate := ⟨1, [⟨10, 1⟩], 0, some "OLD"⟩

def orderA_out : Order := ⟨100, 3, 1, .placed, 20.99, 5, none⟩

def stateA_out : DBState :=
  { demoState with
      orders := [orderA_out]
      order_items := [⟨100, 10, 1, 15.99⟩]
      status_history := [⟨100, .placed, some 3⟩]
      next_order_id := 101 }

def orderB_out : Order := ⟨100, 3, 1, .placed, 14391/1000, 0, some 5⟩

def stateB_out : DBState :=
  { demoState with
      orders := [orderB_out]
      order_items := [⟨100, 10, 1, 15.99⟩]
      status_history := [⟨100, .placed, some 3⟩]
      next_order_id := 101 }

/-- An order of 1×Pizza already in `processing`, owned by customer 3 at
restaurant 1. -/
def processingOrder : Order := ⟨50, 3, 1, .processing, 20.99, 5, none⟩

def deliveredOrder : Order := ⟨51, 3, 1, .delivered, 20.99, 5, none⟩

def canceledOrder : Order := ⟨52, 3, 1, .canceled, 20.99, 5, none⟩

def stateWithOrders : DBState :=
  ⟨[demoRestaurant, otherRestaurant], [demoMeal, demoMeal2, otherMeal],
   [demoCoupon, staleCoupon],
   [processingOrder, deliveredOrder, canceledOrder],
   [⟨50, 10, 1, 15.99⟩, ⟨51, 10, 1, 15.99⟩, ⟨52, 10, 1, 15.99⟩],
   [⟨50, .placed, some 3⟩, ⟨50, .processing, some 2⟩,
    ⟨51, .placed, some 3⟩, ⟨52, .placed, some 3⟩],
   200⟩

theorem scenarioA_eq :
    create_order demoState orderA demoCustomer = .ok (stateA_out, orderA_out) := by
  simp only [create_order, process_cart_items, apply_coupon, get_restaurant_by_id,
    get_meal_by_id, get_coupon_by_code, demoState, demoMeal, demoRestaurant, demoCustomer,
    orderA, stateA_out, orderA_out, List.find?]
  norm_num

theorem scenarioB_eq :
    create_order demoState orderB demoCustomer = .ok (stateB_out, orderB_out) := by
  simp only [create_order, process_cart_items, apply_coupon, get_restaurant_by_id,
    get_meal_by_id, get_coupon_by_code, demoState, demoMeal, demoRestaurant, demoCustomer,
    demoCoupon, staleCoupon, orderB, stateB_out, orderB_out, List.find?]
  norm_num

/-! ## Claims -/

/-- Claim C1: for every successful creation, the persisted `total_amount`
equals the spec's pricing pipeline applied to the cart's resolved lines:
the exact-decimal subtotal `Σ unitPrice × quantity`, reduced by
`subtotal × (discountPercentage / 100)` when a coupon is supplied, plus
the tip.  (Scenario A — one 15.99 meal, tip 5.00, no coupon, total 20.99 —
is the witness.) -/
theorem C1_total_amount_spec (s : DBState) (d : OrderCreate) (u : User)
    (s' : DBState) (o : Order)
    (h : create_order s d u = .ok (s', o)) :
    ∃ lines : List (Meal × Nat),
      List.Forall₂ (cart_line_resolved s d.restaurant_id) d.items lines ∧
      o.total_amount =
        spec_computeTotal (lines.map fun mq => (mq.1.price, mq.2))
          (coupon_discount_of s d.coupon_code) d.tip_amount := by
  obtain ⟨hrole, ⟨r, hr, hb⟩, t, ms, t2, cid, hpc, hac, ho, hs'⟩ := create_order_ok h
  obtain ⟨tail, htail, ht, hfa⟩ :=
    process_cart_items_ok s d.restaurant_id d.items 0 [] t ms hpc
  simp only [List.reverse_nil, List.nil_append] at htail
  subst htail
  refine ⟨ms, hfa, ?_⟩
  rcases apply_coupon_ok hac with ⟨hcc, ht2, hcid⟩ | ⟨code, coupon, hcc, hcode, hact, ht2, hcid⟩
  · subst ho
    simp [spec_computeTotal, hcc, coupon_discount_of, ht2, ht]
  · subst ho
    simp [spec_computeTotal, hcc, coupon_discount_of, hcode, ht2, ht]

/-- Witness for C1: scenario A of the spec.  One meal priced 15.99,
quantity 1, tip 5.00, no coupon: creation succeeds, the persisted total
is 20.99, and the pricing conclusion of `C1_total_amount_spec` holds at
this input. -/
theorem C1_total_amount_spec_witness :
    create_order demoState orderA demoCustomer = .ok (stateA_out, orderA_out) ∧
    orderA_out.total_amount = 20.99 ∧
    (∃ lines : List (Meal × Nat),
      List.Forall₂ (cart_line_resolved demoState orderA.restaurant_id) orderA.items lines ∧
      orderA_out.total_amount =
        spec_computeTotal (lines.map fun mq => (mq.1.price, mq.2))
          (coupon_discount_of demoState orderA.coupon_code) orderA.tip_amount) :=
  ⟨scenarioA_eq, rfl,
   C1_total_amount_spec demoState orderA demoCustomer stateA_out orderA_out scenarioA_eq⟩

theorem roundHalfUp2_idem (q : ℚ) : roundHalfUp2 (roundHalfUp2 q) = roundHalfUp2 q := by
  unfold roundHalfUp2
  have h : ((⌊q * 100 + 1/2⌋ : ℤ) : ℚ) / 100 * 100 = ((⌊q * 100 + 1/2⌋ : ℤ) : ℚ) := by
    field_simp
  rw [h]
  norm_num [Int.floor_eq_iff]

/-- Claim C6: the pricing pipeline itself performs no rounding — the
total handed to persistence is the exact decimal
`subtotal − discount + tip` — so the round-half-up quantization to 2
decimal places (the `Numeric(10,2)` column, the design decision §4.1 of
the spec fixes) is applied exactly once, at the very end, and applying it
again would change nothing.  (Scenario B — 15.99 with a 10% coupon and
tip 0.00 rounding to 14.39 — is the witness.) -/
theorem C6_round_half_up_once (s : DBState) (d : OrderCreate) (u : User)
    (s' : DBState) (o : Order)
    (h : create_order s d u = .ok (s', o)) :
    ∃ lines : List (Meal × Nat),
      List.Forall₂ (cart_line_resolved s d.restaurant_id) d.items lines ∧
      o.total_amount =
        spec_computeTotal (lines.map fun mq => (mq.1.price, mq.2))
          (coupon_discount_of s d.coupon_code) d.tip_amount ∧
      roundHalfUp2 o.total_amount =
        roundHalfUp2 (spec_computeTotal (lines.map fun mq => (mq.1.price, mq.2))
          (coupon_discount_of s d.coupon_code) d.tip_amount) ∧
      roundHalfUp2 (roundHalfUp2 o.total_amount) = roundHalfUp2 o.total_amount := by
  obtain ⟨hrole, ⟨r, hr, hb⟩, t, ms, t2, cid, hpc, hac, ho, hs'⟩ := create_order_ok h
  obtain ⟨tail, htail, ht, hfa⟩ :=
    process_cart_items_ok s d.restaurant_id d.items 0 [] t ms hpc
  simp only [List.reverse_nil, List.nil_append] at htail
  subst htail
  have hexact : o.total_amount =
      spec_computeTotal (ms.map fun mq => (mq.1.price, mq.2))
        (coupon_discount_of s d.coupon_code) d.tip_amount := by
    rcases apply_coupon_ok hac with ⟨hcc, ht2, hcid⟩ | ⟨code, coupon, hcc, hcode, hact, ht2, hcid⟩
    · subst ho
      simp [spec_computeTotal, hcc, coupon_discount_of, ht2, ht]
    · subst ho
      simp [spec_computeTotal, hcc, coupon_discount_of, hcode, ht2, ht]
  exact ⟨ms, hfa, hexact, by rw [hexact], roundHalfUp2_idem _⟩

/-- Witness for C6: scenario B of the spec.  One 15.99 meal with the 10%
coupon and tip 0.00: the pipeline's exact total is 14.391 (nothing rounded
mid-pipeline), and the single end-of-pipeline round half up yields
14.39. -/
theorem C6_round_half_up_once_witness :
    create_order demoState orderB demoCustomer = .ok (stateB_out, orderB_out) ∧
    orderB_out.total_amount = 14391/1000 ∧
    roundHalfUp2 orderB_out.total_amount = 14.39 ∧
    (∃ lines : List (Meal × Nat),
      List.Forall₂ (cart_line_resolved demoState orderB.restaurant_id) orderB.items lines ∧
      orderB_out.total_amount =
        spec_computeTotal (lines.map fun mq => (mq.1.price, mq.2))
          (coupon_discount_of demoState orderB.coupon_code) orderB.tip_amount ∧
      roundHalfUp2 orderB_out.total_amount =
        roundHalfUp2 (spec_computeTotal (lines.map fun mq => (mq.1.price, mq.2))
          (coupon_discount_of demoState orderB.coupon_code) orderB.tip_amount) ∧
      roundHalfUp2 (roundHalfUp2 orderB_out.total_amount) =
        roundHalfUp2 orderB_out.total_amount) :=
  ⟨scenarioB_eq, rfl, by norm_num [roundHalfUp2, orderB_out],
   C6_round_half_up_once demoState orderB demoCustomer stateB_out orderB_out scenarioB_eq⟩

/-- Claim C2: a target outside the current status's allowed set makes
`update_order_status` fail with the InvalidState (400) transition error
for every principal — the error does not depend on the principal's role,
id or ownership, showing the table check precedes every role and
ownership check — and an order sitting in `canceled` or `received` (whose
allowed sets are empty) fails that way for every target, so it never
changes status again. -/
theorem C2_transition_table_guard (s : DBState) (oid : Nat) (order : Order)
    (new_status : OrderStatus) (user : User)
    (hord : get_order_by_id s oid = some order)
    (hill : new_status ∉ allowed_transitions order.status) :
    update_order_status s oid new_status user =
      .error (.badRequest ("Cannot transition from " ++ statusText order.status ++
        " to " ++ statusText new_status)) ∧
    (order.status = .canceled ∨ order.status = .received →
      ∀ (t : OrderStatus) (u' : User),
        update_order_status s oid t u' =
          .error (.badRequest ("Cannot transition from " ++ statusText order.status ++
            " to " ++ statusText t))) := by
  constructor
  · exact update_order_status_of_guard_error hord (validate_illegal_transition hill)
  · intro hterm t u'
    refine update_order_status_of_guard_error hord (validate_illegal_transition ?_)
    rcases hterm with hc | hc <;> simp [hc, allowed_transitions]

/-- Witness for C2: the canceled order 52 of `stateWithOrders` cannot be
moved to `processing` by the restaurant owner (nor to any status by
anyone: `canceled` is terminal). -/
theorem C2_transition_table_guard_witness :
    get_order_by_id stateWithOrders 52 = some canceledOrder ∧
    OrderStatus.processing ∉ allowed_transitions canceledOrder.status ∧
    update_order_status stateWithOrders 52 .processing demoOwner =
      .error (.badRequest ("Cannot transition from " ++ statusText canceledOrder.status ++
        " to " ++ statusText .processing)) ∧
    (∀ (t : OrderStatus) (u' : User),
      update_order_status stateWithOrders 52 t u' =
        .error (.badRequest ("Cannot transition from " ++ statusText canceledOrder.status ++
          " to " ++ statusText t))) := by
  have h := C2_transition_table_guard stateWithOrders 52 canceledOrder .processing demoOwner
    rfl (by decide)
  exact ⟨rfl, by decide, h.1, h.2 (Or.inl rfl)⟩

/-- Claim C4: for a table-allowed transition requested by a customer:
a customer who is not the order's customer gets Forbidden ("Not your
order") whatever the target; the order's own customer gets Forbidden for
any target other than `canceled` or `received`; and `canceled` when the
current status is not `placed` gets the InvalidState (400) cancel error —
in particular the own customer cancelling a `processing` order. -/
theorem C4_customer_policy (s : DBState) (oid : Nat) (order : Order)
    (new_status : OrderStatus) (user : User)
    (hord : get_order_by_id s oid = some order)
    (hrole : user.role = .customer)
    (hallow : new_status ∈ allowed_transitions order.status) :
    (user.id ≠ order.customer_id →
      update_order_status s oid new_status user =
        .error (.forbidden "Not your order")) ∧
    (user.id = order.customer_id →
      new_status ∉ [OrderStatus.canceled, OrderStatus.received] →
      update_order_status s oid new_status user =
        .error (.forbidden "Customers can only cancel orders or mark them as received")) ∧
    (user.id = order.customer_id → new_status = .canceled →
      order.status ≠ .placed →
      update_order_status s oid new_status user =
        .error (.badRequest "Can only cancel orders that are in PLACED status")) := by
  refine ⟨fun hid => ?_, fun hid hts => ?_, fun hid hc hst => ?_⟩
  · exact update_order_status_of_guard_error hord
      (validate_customer_not_owner hrole hallow hid)
  · exact update_order_status_of_guard_error hord
      (validate_customer_bad_target hrole hallow hid hts)
  · subst hc
    exact update_order_status_of_guard_error hord
      (validate_customer_cancel_not_placed hrole hallow hid hst)

/-- Witness for C4: scenario D of the spec.  Customer 3 owns order 50,
which is in `processing`; `canceled` is table-allowed from `processing`,
yet the customer's cancel fails with the InvalidState cancel error. -/
theorem C4_customer_policy_witness :
    get_order_by_id stateWithOrders 50 = some processingOrder ∧
    demoCustomer.role = .customer ∧
    OrderStatus.canceled ∈ allowed_transitions processingOrder.status ∧
    demoCustomer.id = processingOrder.customer_id ∧
    processingOrder.status ≠ .placed ∧
    update_order_status stateWithOrders 50 .canceled demoCustomer =
      .error (.badRequest "Can only cancel orders that are in PLACED status") :=
  ⟨rfl, rfl, by decide, rfl, by decide,
   (C4_customer_policy stateWithOrders 50 processingOrder .canceled demoCustomer
     rfl rfl (by decide)).2.2 rfl rfl (by decide)⟩

/-- Claim C7: for a table-allowed transition: a restaurant owner who does
not own the order's restaurant gets Forbidden; even the owning restaurant
owner gets Forbidden for target `received`; and an administrator succeeds
on any table-allowed transition with no ownership condition. -/
theorem C7_owner_admin_policy (s : DBState) (oid : Nat) (order : Order)
    (new_status : OrderStatus) (user : User) (r : Restaurant)
    (hord : get_order_by_id s oid = some order)
    (hallow : new_status ∈ allowed_transitions order.status)
    (hr : get_restaurant_by_id s order.restaurant_id = some r) :
    (user.role = .restaurant_owner → user.id ≠ r.owner_id →
      update_order_status s oid new_status user =
        .error (.forbidden "Not your restaurant's order")) ∧
    (user.role = .restaurant_owner → user.id = r.owner_id →
      new_status = .received →
      update_order_status s oid new_status user =
        .error (.forbidden "Only customers can mark orders as received")) ∧
    (user.role = .admin →
      ∃ s' o', update_order_status s oid new_status user = .ok (s', o')) := by
  refine ⟨fun hrole hid => ?_, fun hrole hid hrec => ?_, fun hrole => ?_⟩
  · exact update_order_status_of_guard_error hord
      (validate_owner_not_owner hrole hallow hr hid)
  · subst hrec
    exact update_order_status_of_guard_error hord
      (validate_owner_received hrole hallow hr hid)
  · exact ⟨_, _, update_order_status_of_guard_ok hord (validate_admin_ok hrole hallow)⟩

/-- Witness for C7: order 51 is `delivered` (so `received` is the
table-allowed target).  Restaurant owner 8 does not own restaurant 1 and
is refused; owner 2 owns it but still may not mark `received`; the
administrator succeeds. -/
theorem C7_owner_admin_policy_witness :
    get_order_by_id stateWithOrders 51 = some deliveredOrder ∧
    OrderStatus.received ∈ allowed_transitions deliveredOrder.status ∧
    get_restaurant_by_id stateWithOrders deliveredOrder.restaurant_id = some demoRestaurant ∧
    update_order_status stateWithOrders 51 .received otherOwner =
      .error (.forbidden "Not your restaurant's order") ∧
    update_order_status stateWithOrders 51 .received demoOwner =
      .error (.forbidden "Only customers can mark orders as received") ∧
    (∃ s' o', update_order_status stateWithOrders 51 .received demoAdmin = .ok (s', o')) := by
  have h8 := C7_owner_admin_policy stateWithOrders 51 deliveredOrder .received otherOwner
    demoRestaurant rfl (by decide) rfl
  have h2 := C7_owner_admin_policy stateWithOrders 51 deliveredOrder .received demoOwner
    demoRestaurant rfl (by decide) rfl
  have h4 := C7_owner_admin_policy stateWithOrders 51 deliveredOrder .received demoAdmin
    demoRestaurant rfl (by decide) rfl
  exact ⟨rfl, by decide, rfl, h8.1 rfl (by decide), h2.2.1 rfl rfl rfl, h4.2.2 rfl⟩

/-- Claim C8: a successful status update only sets the order's status
field and appends exactly one history row with the target status and the
principal as changed-by; customer id, restaurant id, coupon id, total
amount, tip amount, the whole `order_items` table and every other order
are untouched. -/
theorem C8_status_update_frame (s : DBState) (oid : Nat)
    (new_status : OrderStatus) (user : User) (s' : DBState) (o' : Order)
    (order : Order)
    (h : update_order_status s oid new_status user = .ok (s', o'))
    (hord : get_order_by_id s oid = some order) :
    o'.status = new_status ∧
    o'.id = order.id ∧ o'.customer_id = order.customer_id ∧
    o'.restaurant_id = order.restaurant_id ∧ o'.coupon_id = order.coupon_id ∧
    o'.total_amount = order.total_amount ∧ o'.tip_amount = order.tip_amount ∧
    s'.order_items = s.order_items ∧
    s'.status_history = s.status_history ++
      [{ order_id := order.id, status := new_status,
         changed_by_user_id := some user.id }] ∧
    s'.orders = s.orders.map (fun x => if x.id = order.id then o' else x) ∧
    (∀ x ∈ s.orders, x.id ≠ order.id → x ∈ s'.orders) ∧
    s'.restaurants = s.restaurants ∧ s'.meals = s.meals ∧
    s'.coupons = s.coupons := by
  obtain ⟨order2, hord2, hval, ho', hs'⟩ := update_order_status_ok h
  rw [hord] at hord2
  injection hord2 with hord2
  subst hord2
  subst ho'
  subst hs'
  refine ⟨rfl, rfl, rfl, rfl, rfl, rfl, rfl, rfl, rfl, rfl, ?_, rfl, rfl, rfl⟩
  intro x hx hxid
  have hmem := List.mem_map_of_mem
    (fun x => if x.id = order.id then { order with status := new_status } else x) hx
  dsimp only at hmem
  rwa [if_neg hxid] at hmem

def inRouteOrder : Order := ⟨50, 3, 1, .in_route, 20.99, 5, none⟩

def postUpdateState : DBState :=
  { stateWithOrders with
      orders := [inRouteOrder, deliveredOrder, canceledOrder]
      status_history := [⟨50, .placed, some 3⟩, ⟨50, .processing, some 2⟩,
        ⟨51, .placed, some 3⟩, ⟨52, .placed, some 3⟩, ⟨50, .in_route, some 4⟩] }

theorem scenario_update_eq :
    update_order_status stateWithOrders 50 .in_route demoAdmin =
      .ok (postUpdateState, inRouteOrder) := rfl

/-- Witness for C8: the administrator moves order 50 from `processing` to
`in_route`; only the status changes and exactly the one history row is
appended. -/
theorem C8_status_update_frame_witness :
    update_order_status stateWithOrders 50 .in_route demoAdmin =
      .ok (postUpdateState, inRouteOrder) ∧
    get_order_by_id stateWithOrders 50 = some processingOrder ∧
    inRouteOrder.status = .in_route ∧
    inRouteOrder.total_amount = processingOrder.total_amount ∧
    inRouteOrder.tip_amount = processingOrder.tip_amount ∧
    inRouteOrder.customer_id = processingOrder.customer_id ∧
    postUpdateState.order_items = stateWithOrders.order_items ∧
    postUpdateState.status_history = stateWithOrders.status_history ++
      [{ order_id := processingOrder.id, status := .in_route,
         changed_by_user_id := some demoAdmin.id }] := by
  have h := C8_status_update_frame stateWithOrders 50 .in_route demoAdmin
    postUpdateState inRouteOrder processingOrder scenario_update_eq rfl
  exact ⟨scenario_update_eq, rfl, h.1, h.2.2.2.2.2.1, h.2.2.2.2.2.2.1,
    h.2.2.1, h.2.2.2.2.2.2.2.1, h.2.2.2.2.2.2.2.2.1⟩

/-- Claim C9: `delete_order` refuses every non-administrator with
Forbidden before even looking the order up (no existence hypothesis is
needed); an administrator gets NotFound when the order is absent; and an
administrator's successful deletion removes the order together with every
one of its `OrderItem` and `OrderStatusHistory` rows (the cascade),
leaving all other rows in place. -/
theorem C9_delete_order (s : DBState) (oid : Nat) (user : User) :
    (user.role ≠ .admin →
      delete_order s oid user = .error (.forbidden "Only admins can delete orders")) ∧
    (user.role = .admin → get_order_by_id s oid = none →
      delete_order s oid user = .error (.notFound "Order not found")) ∧
    (∀ order, user.role = .admin → get_order_by_id s oid = some order →
      ∃ s', delete_order s oid user = .ok (s', true) ∧
        (∀ x ∈ s'.orders, x.id ≠ oid) ∧
        (∀ it ∈ s'.order_items, it.order_id ≠ oid) ∧
        (∀ hrow ∈ s'.status_history, hrow.order_id ≠ oid) ∧
        (∀ x ∈ s.orders, x.id ≠ oid → x ∈ s'.orders) ∧
        (∀ it ∈ s.order_items, it.order_id ≠ oid → it ∈ s'.order_items) ∧
        (∀ hrow ∈ s.status_history, hrow.order_id ≠ oid → hrow ∈ s'.status_history) ∧
        get_order_by_id s' oid = none) := by
  refine ⟨fun hrole => ?_, fun hrole hmiss => ?_, fun order hrole hord => ?_⟩
  · unfold delete_order
    rw [if_pos hrole]
  · simp [delete_order, hrole, hmiss]
  · refine ⟨{ s with
        orders := s.orders.filter (fun o => o.id ≠ oid)
        order_items := s.order_items.filter (fun it => it.order_id ≠ oid)
        status_history := s.status_history.filter (fun h => h.order_id ≠ oid) },
      by simp [delete_order, hrole, hord], ?_, ?_, ?_, ?_, ?_, ?_, ?_⟩
    · intro x hx
      exact (List.mem_filter.mp hx).2 |> fun h => by simpa using h
    · intro it hit
      exact (List.mem_filter.mp hit).2 |> fun h => by simpa using h
    · intro hrow hrow_mem
      exact (List.mem_filter.mp hrow_mem).2 |> fun h => by simpa using h
    · intro x hx hne
      exact List.mem_filter.mpr ⟨hx, by simpa using hne⟩
    · intro it hit hne
      exact List.mem_filter.mpr ⟨hit, by simpa using hne⟩
    · intro hrow hm hne
      exact List.mem_filter.mpr ⟨hm, by simpa using hne⟩
    · unfold get_order_by_id
      apply List.find?_eq_none.mpr
      intro x hx
      have : x.id ≠ oid := by
        have := (List.mem_filter.mp hx).2
        simpa using this
      simpa using this

/-- Witness for C9 (scenario F): the customer may not delete order 50;
the administrator gets NotFound for the absent order 99; and the
administrator's deletion of order 50 removes it together with its item
and history rows. -/
theorem C9_delete_order_witness :
    delete_order stateWithOrders 50 demoCustomer =
      .error (.forbidden "Only admins can delete orders") ∧
    delete_order stateWithOrders 99 demoAdmin =
      .error (.notFound "Order not found") ∧
    (∃ s', delete_order stateWithOrders 50 demoAdmin = .ok (s', true) ∧
      (∀ x ∈ s'.orders, x.id ≠ 50) ∧
      (∀ it ∈ s'.order_items, it.order_id ≠ 50) ∧
      (∀ hrow ∈ s'.status_history, hrow.order_id ≠ 50) ∧
      get_order_by_id s' 50 = none) := by
  refine ⟨(C9_delete_order stateWithOrders 50 demoCustomer).1 (by decide),
    (C9_delete_order stateWithOrders 99 demoAdmin).2.1 rfl rfl, ?_⟩
  obtain ⟨s', heq, hno, hni, hnh, _, _, _, hfind⟩ :=
    (C9_delete_order stateWithOrders 50 demoAdmin).2.2 processingOrder rfl rfl
  exact ⟨s', heq, hno, hni, hnh, hfind⟩

theorem get_meal_by_id_id {s : DBState} {k : Nat} {m : Meal}
    (h : get_meal_by_id s k = some m) : m.id = k := by
  have := List.find?_some h
  simpa using this

/-- Claim C5: a successful creation persists, in the one returned state,
the new Order with status PLACED, exactly one OrderItem per cart line —
each pointing at the new order, carrying the line's meal id and quantity
and the meal's catalog price frozen into `price_at_order` — and exactly
one history row (PLACED, changed-by the principal); every precondition
failure raises before anything is written (the error branches of
`create_order` return no state at all), so a failed creation leaves no
rows. -/
theorem C5_atomic_creation (s : DBState) (d : OrderCreate) (u : User)
    (s' : DBState) (o : Order)
    (h : create_order s d u = .ok (s', o)) :
    o.status = .placed ∧
    o.id = s.next_order_id ∧
    s'.orders = s.orders ++ [o] ∧
    (∃ new_items : List OrderItem,
      s'.order_items = s.order_items ++ new_items ∧
      new_items.length = d.items.length ∧
      List.Forall₂ (fun (it : OrderItemCreate) (oi : OrderItem) =>
        oi.order_id = o.id ∧ oi.meal_id = it.meal_id ∧ oi.quantity = it.quantity ∧
        ∃ m, get_meal_by_id s it.meal_id = some m ∧ oi.price_at_order = m.price)
        d.items new_items) ∧
    s'.status_history = s.status_history ++
      [{ order_id := o.id, status := .placed, changed_by_user_id := some u.id }] := by
  obtain ⟨hrole, ⟨r, hr, hb⟩, t, ms, t2, cid, hpc, hac, ho, hs'⟩ := create_order_ok h
  obtain ⟨tail, htail, ht, hfa⟩ :=
    process_cart_items_ok s d.restaurant_id d.items 0 [] t ms hpc
  simp only [List.reverse_nil, List.nil_append] at htail
  subst htail
  have hid : o.id = s.next_order_id := by rw [ho]
  refine ⟨by rw [ho], hid, by rw [hs'], ?_, ?_⟩
  · refine ⟨ms.map (fun mq =>
      { order_id := s.next_order_id, meal_id := mq.1.id,
        quantity := mq.2, price_at_order := mq.1.price }), by rw [hs'], ?_, ?_⟩
    · rw [List.length_map, hfa.length_eq]
    · rw [List.forall₂_map_right_iff]
      refine hfa.imp ?_
      intro it mq hres
      obtain ⟨hm, hbk, hrid, hq⟩ := hres
      exact ⟨hid.symm, get_meal_by_id_id hm, hq, mq.1, hm, rfl⟩
  · rw [hs', hid]

def mixedCartError : ApiError := .badRequest "All meals must be from the same restaurant"

/-- Witness for C5: scenario A creation persists exactly the three kinds
of rows, and the mixed-restaurant cart of scenario E produces the
InvalidState error and hence no state at all (nothing half-written to read). -/
theorem C5_atomic_creation_witness :
    create_order demoState orderA demoCustomer = .ok (stateA_out, orderA_out) ∧
    orderA_out.status = .placed ∧
    stateA_out.orders = demoState.orders ++ [orderA_out] ∧
    stateA_out.status_history = demoState.status_history ++
      [{ order_id := orderA_out.id, status := .placed,
         changed_by_user_id := some demoCustomer.id }] ∧
    create_order demoState mixedCart demoCustomer = .error mixedCartError := by
  have h := C5_atomic_creation demoState orderA demoCustomer stateA_out orderA_out scenarioA_eq
  exact ⟨scenarioA_eq, h.1, h.2.2.1, h.2.2.2.2, rfl⟩

/-- Claim C10: `create_order` never merges or deduplicates cart lines:
every successful creation appends exactly one `OrderItem` per cart line —
the counts match even when several lines carry the same meal id — with
each line keeping its own meal id and quantity, and the subtotal is the
sum of one `unitPrice × quantity` term per line. -/
theorem C10_no_line_merging (s : DBState) (d : OrderCreate) (u : User)
    (s' : DBState) (o : Order)
    (h : create_order s d u = .ok (s', o)) :
    ∃ (new_items : List OrderItem) (lines : List (Meal × Nat)),
      s'.order_items = s.order_items ++ new_items ∧
      new_items.length = d.items.length ∧
      List.Forall₂ (fun (it : OrderItemCreate) (oi : OrderItem) =>
        oi.meal_id = it.meal_id ∧ oi.quantity = it.quantity) d.items new_items ∧
      List.Forall₂ (cart_line_resolved s d.restaurant_id) d.items lines ∧
      o.total_amount =
        spec_computeTotal (lines.map fun mq => (mq.1.price, mq.2))
          (coupon_discount_of s d.coupon_code) d.tip_amount := by
  obtain ⟨hrole, ⟨r, hr, hb⟩, t, ms, t2, cid, hpc, hac, ho, hs'⟩ := create_order_ok h
  obtain ⟨tail, htail, ht, hfa⟩ :=
    process_cart_items_ok s d.restaurant_id d.items 0 [] t ms hpc
  simp only [List.reverse_nil, List.nil_append] at htail
  subst htail
  refine ⟨ms.map (fun mq =>
      { order_id := s.next_order_id, meal_id := mq.1.id,
        quantity := mq.2, price_at_order := mq.1.price }), ms,
    by rw [hs'], by rw [List.length_map, hfa.length_eq], ?_, hfa, ?_⟩
  · rw [List.forall₂_map_right_iff]
    refine hfa.imp ?_
    intro it mq hres
    obtain ⟨hm, hbk, hrid, hq⟩ := hres
    exact ⟨get_meal_by_id_id hm, hq⟩
  · rcases apply_coupon_ok hac with ⟨hcc, ht2, hcid⟩ | ⟨code, coupon, hcc, hcode, hact, ht2, hcid⟩
    · subst ho
      simp [spec_computeTotal, hcc, coupon_discount_of, ht2, ht]
    · subst ho
      simp [spec_computeTotal, hcc, coupon_discount_of, hcode, ht2, ht]

def dupOrder_out : Order := ⟨100, 3, 1, .placed, 47.97, 0, none⟩

def stateDup_out : DBState :=
  { demoState with
      orders := [dupOrder_out]
      order_items := [⟨100, 10, 1, 15.99⟩, ⟨100, 10, 2, 15.99⟩]
      status_history := [⟨100, .placed, some 3⟩]
      next_order_id := 101 }

theorem scenarioDup_eq :
    create_order demoState dupCart demoCustomer = .ok (stateDup_out, dupOrder_out) := by
  simp only [create_order, process_cart_items, apply_coupon, get_restaurant_by_id,
    get_meal_by_id, get_coupon_by_code, demoState, demoMeal, demoRestaurant, demoCustomer,
    dupCart, stateDup_out, dupOrder_out, List.find?]
  norm_num

/-- Witness for C10: a cart with two lines for the same meal (quantities
1 and 2) produces two OrderItems — one per line — and the total
15.99·1 + 15.99·2 = 47.97. -/
theorem C10_no_line_merging_witness :
    create_order demoState dupCart demoCustomer = .ok (stateDup_out, dupOrder_out) ∧
    stateDup_out.order_items.length = dupCart.items.length ∧
    dupOrder_out.total_amount = 47.97 ∧
    (∃ (new_items : List OrderItem) (lines : List (Meal × Nat)),
      stateDup_out.order_items = demoState.order_items ++ new_items ∧
      new_items.length = dupCart.items.length ∧
      List.Forall₂ (fun (it : OrderItemCreate) (oi : OrderItem) =>
        oi.meal_id = it.meal_id ∧ oi.quantity = it.quantity) dupCart.items new_items ∧
      List.Forall₂ (cart_line_resolved demoState dupCart.restaurant_id)
        dupCart.items lines ∧
      dupOrder_out.total_amount =
        spec_computeTotal (lines.map fun mq => (mq.1.price, mq.2))
          (coupon_discount_of demoState dupCart.coupon_code) dupCart.tip_amount) :=
  ⟨scenarioDup_eq, rfl, rfl,
   C10_no_line_merging demoState dupCart demoCustomer stateDup_out dupOrder_out scenarioDup_eq⟩

/-- Claim C3: `create_order` enforces its preconditions in a fixed order,
first failure wins: (1) a non-customer principal gets Forbidden whatever
else holds; (2) with a customer principal, a missing restaurant gets
NotFound and a blocked one InvalidState; (3) the cart is walked in order —
with every earlier line valid, the first offending line decides the error:
NotFound naming the meal id if absent, InvalidState naming the meal if
blocked, InvalidState rejecting the whole cart if it belongs to another
restaurant; (4) with restaurant and all lines valid, a supplied coupon
code gets NotFound if absent and InvalidState if inactive. -/
theorem C3_precondition_order (s : DBState) (d : OrderCreate) (u : User) :
    (u.role ≠ .customer →
      create_order s d u = .error (.forbidden "Only customers can place orders")) ∧
    (u.role = .customer → get_restaurant_by_id s d.restaurant_id = none →
      create_order s d u = .error (.notFound "Restaurant not found")) ∧
    (∀ r, u.role = .customer → get_restaurant_by_id s d.restaurant_id = some r →
      r.is_blocked = true →
      create_order s d u = .error (.badRequest "Restaurant is blocked")) ∧
    (∀ r pre item rest, u.role = .customer →
      get_restaurant_by_id s d.restaurant_id = some r → r.is_blocked = false →
      d.items = pre ++ item :: rest →
      (∀ it ∈ pre, cart_line_valid s d.restaurant_id it) →
      ((get_meal_by_id s item.meal_id = none →
        create_order s d u =
          .error (.notFound ("Meal with ID " ++ toString item.meal_id ++ " not found"))) ∧
       (∀ m, get_meal_by_id s item.meal_id = some m → m.is_blocked = true →
        create_order s d u = .error (.badRequest ("Meal " ++ m.name ++ " is blocked"))) ∧
       (∀ m, get_meal_by_id s item.meal_id = some m → m.is_blocked = false →
        m.restaurant_id ≠ d.restaurant_id →
        create_order s d u =
          .error (.badRequest "All meals must be from the same restaurant")))) ∧
    (∀ r code, u.role = .customer →
      get_restaurant_by_id s d.restaurant_id = some r → r.is_blocked = false →
      (∀ it ∈ d.items, cart_line_valid s d.restaurant_id it) →
      d.coupon_code = some code → get_coupon_by_code s code = none →
      create_order s d u = .error (.notFound "Coupon not found")) ∧
    (∀ r code coupon, u.role = .customer →
      get_restaurant_by_id s d.restaurant_id = some r → r.is_blocked = false →
      (∀ it ∈ d.items, cart_line_valid s d.restaurant_id it) →
      d.coupon_code = some code → get_coupon_by_code s code = some coupon →
      coupon.is_active = false →
      create_order s d u = .error (.badRequest "Coupon is not active")) := by
  refine ⟨fun hrole => ?_, fun hrole hmiss => ?_, fun r hrole hr hb => ?_,
    fun r pre item rest hrole hr hb hitems hpre => ⟨fun hm => ?_, fun m hm hmb => ?_,
      fun m hm hmb hmr => ?_⟩,
    fun r code hrole hr hb hall hcc hcm => ?_,
    fun r code coupon hrole hr hb hall hcc hcn hina => ?_⟩
  · unfold create_order
    rw [if_pos hrole]
  · simp [create_order, hrole, hmiss]
  · simp [create_order, hrole, hr, hb]
  · refine create_order_of_cart_error hrole hr hb ?_
    rw [hitems]
    exact process_cart_items_missing s d.restaurant_id pre item rest 0 [] hpre hm
  · refine create_order_of_cart_error hrole hr hb ?_
    rw [hitems]
    exact process_cart_items_blocked s d.restaurant_id pre item m rest 0 [] hpre hm hmb
  · refine create_order_of_cart_error hrole hr hb ?_
    rw [hitems]
    exact process_cart_items_cross_restaurant s d.restaurant_id pre item m rest 0 []
      hpre hm hmb hmr
  · obtain ⟨t, ms, hpc⟩ := process_cart_items_all_valid s d.restaurant_id d.items 0 [] hall
    refine create_order_of_coupon_error hrole hr hb hpc ?_
    rw [hcc]
    simp [apply_coupon, hcm]
  · obtain ⟨t, ms, hpc⟩ := process_cart_items_all_valid s d.restaurant_id d.items 0 [] hall
    refine create_order_of_coupon_error hrole hr hb hpc ?_
    rw [hcc]
    simp [apply_coupon, hcn, hina]

/-- Witness for C3: a restaurant owner may not create an order (Forbidden);
the mixed-restaurant cart of scenario E fails InvalidState at its second
line (the first line being valid); and a cart with the inactive coupon
"OLD" fails InvalidState after all lines validate. -/
theorem C3_precondition_order_witness :
    demoOwner.role ≠ .customer ∧
    create_order demoState orderA demoOwner =
      .error (.forbidden "Only customers can place orders") ∧
    create_order demoState mixedCart demoCustomer =
      .error (.badRequest "All meals must be from the same restaurant") ∧
    create_order demoState staleCouponCart demoCustomer =
      .error (.badRequest "Coupon is not active") := by
  have hpre : ∀ it ∈ [(⟨10, 1⟩ : OrderItemCreate)],
      cart_line_valid demoState mixedCart.restaurant_id it := by
    intro it hit
    simp only [List.mem_singleton] at hit
    subst hit
    exact ⟨demoMeal, rfl, rfl, rfl⟩
  have hall : ∀ it ∈ staleCouponCart.items,
      cart_line_valid demoState staleCouponCart.restaurant_id it := by
    intro it hit
    simp only [staleCouponCart, List.mem_singleton] at hit
    subst hit
    exact ⟨demoMeal, rfl, rfl, rfl⟩
  refine ⟨by decide,
    (C3_precondition_order demoState orderA demoOwner).1 (by decide), ?_, ?_⟩
  · exact ((C3_precondition_order demoState mixedCart demoCustomer).2.2.2.1
      demoRestaurant [⟨10, 1⟩] ⟨12, 1⟩ [] rfl rfl rfl rfl hpre).2.2
      otherMeal rfl rfl (by decide)
  · exact (C3_precondition_order demoState staleCouponCart demoCustomer).2.2.2.2.2
      demoRestaurant "OLD" staleCoupon rfl rfl rfl hall rfl rfl rfl
